import Mathlib

/-!
Shallow embedding of `src/services/geminiService.ts` (plantifi-pro).

The file models the single exported function `analyzePlantImage` together
with the module-level credential read, the data-URL prefix stripping, the
request construction (including the declared JSON response schema), and the
response handling (empty-text check, `JSON.parse`, uniform error wrapping).

External effects are modelled explicitly:
  * the process environment is a `CallEnv` field (captured separately at
    module-load time and at call time, so that the moment of the read is
    observable in the model);
  * the remote `generateContent` call is a `RemoteOutcome` (it either throws
    or returns an optional text);
  * `JSON.parse` is a `CallEnv` field `jsonParse : String → Option Json`
    (`none` models a thrown `SyntaxError`); the code never inspects the
    parser beyond success/failure and the parsed value, so the embedding is
    parametric in it.

JavaScript numbers are modelled as rationals; JSON values as a standard
inductive.
-/

/-- A JSON value, the possible results of `JSON.parse`. -/
inductive Json where
  | null : Json
  | bool (b : Bool) : Json
  | num (q : ℚ) : Json
  | str (s : String) : Json
  | arr (elems : List Json) : Json
  | obj (fields : List (String × Json)) : Json

/-- Look up a field of a JSON object (first binding wins), as JS property
access on the parsed value. -/
def Json.getField (v : Json) (k : String) : Option Json :=
  match v with
  | .obj fields => (fields.find? (fun kv => kv.fst == k)).map Prod.snd
  | _ => none

/-- Whether a JSON value is a string. -/
def Json.isStr : Json → Bool
  | .str _ => true
  | _ => false

/-- The `Type` enumeration of `@google/genai` (the members this file uses). -/
inductive SType where
  | OBJECT : SType
  | STRING : SType
  | NUMBER : SType
  | ARRAY : SType
deriving DecidableEq

/-- One property entry of the declared response schema
(`{ type: ..., enum: [...], items: {...} }`). -/
structure PropSchema where
  type : SType
  enum : Option (List String)
  items : Option SType
deriving DecidableEq

/-- The declared response schema: an object type with named properties and a
list of required property names. -/
structure ResponseSchema where
  type : SType
  properties : List (String × PropSchema)
  required : List String
deriving DecidableEq

/-- The `responseSchema` literal passed in the request `config`
(geminiService.ts lines 58-70), transcribed field by field. -/
def responseSchema : ResponseSchema :=
  ⟨SType.OBJECT,
   [("plant_name", ⟨SType.STRING, none, none⟩),
    ("status", ⟨SType.STRING, some ["Healthy", "Diseased", "Uncertain"], none⟩),
    ("disease_name", ⟨SType.STRING, none, none⟩),
    ("confidence", ⟨SType.NUMBER, none, none⟩),
    ("treatment_advice", ⟨SType.STRING, none, none⟩),
    ("prevention_tips", ⟨SType.ARRAY, none, some SType.STRING⟩),
    ("watering_advice", ⟨SType.STRING, none, none⟩)],
   ["plant_name", "status", "treatment_advice", "confidence",
    "prevention_tips", "watering_advice"]⟩

/-- `s` starts with the pattern `p`, at the character level: the JS test
`/^pat/.test(s)` for a literal (alternation-free) pattern. -/
def strStartsWith (s p : String) : Bool :=
  s.data.take p.data.length == p.data

/-- The three strings the anchored regex
`/^data:image\/(png|jpg|jpeg);base64,/` can match, in alternation order.
They are pairwise non-prefixes of each other, so at most one can match a
given input, exactly as for the backtracking regex engine. -/
def dataUrlHeads : List String :=
  ["data:image/png;base64,", "data:image/jpg;base64,", "data:image/jpeg;base64,"]

/-- `base64Image.replace(/^data:image\/(png|jpg|jpeg);base64,/, "")`
(geminiService.ts line 17): a non-global anchored regex, so at most one
leading occurrence is removed and the rest of the string is untouched. -/
def cleanBase64 (s : String) : String :=
  match dataUrlHeads.find? (fun p => strStartsWith s p) with
  | some p => String.mk (s.data.drop p.data.length)
  | none => s

/-- The `systemInstruction` template literal (lines 19-27), with its
`${language}` interpolations. -/
def systemInstructionFor (language : String) : String :=
  "\n    You are an expert agricultural plant pathologist and linguist. \n    Your task is to analyze plant images and provide diagnosis and advice.\n    \n    CRITICAL LANGUAGE REQUIREMENT: \n    The user has requested the response in " ++ language ++
  ".\n    You MUST translate all descriptive fields (plant_name, disease_name, treatment_advice, prevention_tips, watering_advice) into " ++ language ++
  ".\n    However, the 'status' field MUST remain in English (Healthy, Diseased, Uncertain) for programmatic use.\n  "

/-- The `prompt` template literal (lines 29-44), with its `${symptoms ? ... : ''}`
and `${language}` interpolations. -/
def promptFor (language : String) (symptoms : Option String) : String :=
  "\n    Analyze this plant leaf image.\n    " ++
  (match symptoms with
   | some sy => "Additional user-reported symptoms: \"" ++ sy ++ "\"."
   | none => "") ++
  "\n    \n    Provide the output strictly in JSON format.\n    \n    Fields required:\n    1. plant_name: The common name of the plant (in " ++ language ++
  ").\n    2. status: One of \"Healthy\", \"Diseased\", \"Uncertain\".\n    3. disease_name: The name of the disease (in " ++ language ++
  "), or \"None\" if healthy.\n    4. confidence: A number between 0 and 100.\n    5. treatment_advice: A practical guide to treating the disease (in " ++ language ++
  ").\n    6. prevention_tips: A list of 2-3 tips to prevent recurrence (in " ++ language ++
  ").\n    7. watering_advice: Specific watering instructions for this condition (in " ++ language ++ ").\n  "

/-- The request handed to `ai.models.generateContent` (lines 47-71): model
name, the inline image part, the text part, and the `config` block. -/
structure GenerateContentRequest where
  model : String
  inlineDataMimeType : String
  inlineDataData : String
  promptText : String
  systemInstruction : String
  responseMimeType : String
  declaredSchema : ResponseSchema
deriving DecidableEq

/-- Build the request exactly as the source does, from the (already
prefix-stripped) image data, the language, and the optional symptoms. -/
def buildRequest (base64Image language : String) (symptoms : Option String) :
    GenerateContentRequest :=
  ⟨"gemini-2.5-flash",
   "image/jpeg",
   cleanBase64 base64Image,
   promptFor language symptoms,
   systemInstructionFor language,
   "application/json",
   responseSchema⟩

/-- The behaviour of the remote `generateContent` call for one invocation:
it throws, or it resolves with `response.text` (which may be `undefined`,
modelled `none`, or any string). -/
inductive RemoteOutcome where
  | throws : RemoteOutcome
  | returns (text : Option String) : RemoteOutcome

/-- Everything external a single invocation can observe: the value
`process.env.API_KEY` had when the module was loaded, the value it has at
call time (the source never reads this one — keeping it in the model makes
that fact provable), the remote call's behaviour, and `JSON.parse`. -/
structure CallEnv where
  processApiKeyAtLoad : Option String
  processApiKeyAtCall : Option String
  remote : RemoteOutcome
  jsonParse : String → Option Json

/-- `const apiKey = process.env.API_KEY || ''` (line 6): evaluated once at
module load; an absent variable and an empty one both yield `""`. -/
def apiKey (env : CallEnv) : String :=
  (env.processApiKeyAtLoad).getD ""

/-- Error message of the configuration failure (line 11). -/
def apiKeyMissingMessage : String :=
  "API Key is missing. Please set your API_KEY in the Vercel environment variables."

/-- Error message of the uniform analysis failure (line 81). -/
def analysisFailedMessage : String :=
  "Failed to analyze image. Please check if your API key is valid and has billing enabled."

/-- `analyzePlantImage` (lines 9-83). The first component is the settled
promise: `Except.error m` models a rejection with an `Error` whose message
is `m`, `Except.ok v` a resolution with the parsed JSON value (the
`as DiseaseAnalysisResult` cast has no runtime content, so the value is
whatever `JSON.parse` produced). The second component records the request
context: `none` means the guard threw before the `GoogleGenAI` client was
constructed, so no network I/O was attempted; `some req` means `req` was
handed to `generateContent`. -/
def analyzePlantImage (env : CallEnv) (base64Image language : String)
    (symptoms : Option String) :
    Except String Json × Option GenerateContentRequest :=
  if apiKey env = "" then
    (Except.error apiKeyMissingMessage, none)
  else
    let req := buildRequest base64Image language symptoms
    let result : Except String Json :=
      match env.remote with
      | RemoteOutcome.throws => Except.error analysisFailedMessage
      | RemoteOutcome.returns none => Except.error analysisFailedMessage
      | RemoteOutcome.returns (some text) =>
        if text = "" then Except.error analysisFailedMessage
        else
          match env.jsonParse text with
          | none => Except.error analysisFailedMessage
          | some v => Except.ok v
    (result, some req)

/-- A `JSON.parse` model that recognises exactly one text (a pure function
standing for the parser on the inputs a scenario uses; `none` elsewhere
models a `SyntaxError`). -/
def singleParse (t : String) (v : Json) : String → Option Json :=
  fun s => if s = t then some v else none

/-- A schema-conformant parsed response: healthy tomato, confidence 97,
two prevention tips. -/
def cGoodJson : Json :=
  Json.obj
    [("plant_name", Json.str "Tomato"),
     ("status", Json.str "Healthy"),
     ("disease_name", Json.str "None"),
     ("confidence", Json.num 97),
     ("treatment_advice", Json.str "No treatment needed."),
     ("prevention_tips", Json.arr [Json.str "Water at soil level.", Json.str "Ensure airflow."]),
     ("watering_advice", Json.str "Water weekly.")]

/-- The response text whose parse is `cGoodJson`. -/
def cGoodText : String :=
  "\x7b\"plant_name\":\"Tomato\",\"status\":\"Healthy\",\"disease_name\":\"None\",\"confidence\":97,\"treatment_advice\":\"No treatment needed.\",\"prevention_tips\":[\"Water at soil level.\",\"Ensure airflow.\"],\"watering_advice\":\"Water weekly.\"\x7d"

/-- Environment: key present at load, remote returns `cGoodText`. -/
def cGoodEnv : CallEnv :=
  ⟨some "k", some "k", RemoteOutcome.returns (some cGoodText), singleParse cGoodText cGoodJson⟩

/-- A schema-conformant parsed response with confidence exactly 100. -/
def cConf100Json : Json :=
  Json.obj
    [("plant_name", Json.str "Rose"),
     ("status", Json.str "Diseased"),
     ("disease_name", Json.str "Black spot"),
     ("confidence", Json.num 100),
     ("treatment_advice", Json.str "Remove affected leaves."),
     ("prevention_tips", Json.arr [Json.str "Avoid wet foliage.", Json.str "Prune for airflow."]),
     ("watering_advice", Json.str "Water in the morning.")]

/-- The response text whose parse is `cConf100Json`. -/
def cConf100Text : String :=
  "\x7b\"plant_name\":\"Rose\",\"status\":\"Diseased\",\"disease_name\":\"Black spot\",\"confidence\":100,\"treatment_advice\":\"Remove affected leaves.\",\"prevention_tips\":[\"Avoid wet foliage.\",\"Prune for airflow.\"],\"watering_advice\":\"Water in the morning.\"\x7d"

/-- Environment: key present at load, remote returns `cConf100Text`. -/
def cConf100Env : CallEnv :=
  ⟨some "k", some "k", RemoteOutcome.returns (some cConf100Text), singleParse cConf100Text cConf100Json⟩

/-- A schema-conformant parsed response with confidence exactly 0. -/
def cConf0Json : Json :=
  Json.obj
    [("plant_name", Json.str "Fern"),
     ("status", Json.str "Uncertain"),
     ("disease_name", Json.str "Unknown"),
     ("confidence", Json.num 0),
     ("treatment_advice", Json.str "Retake the photo."),
     ("prevention_tips", Json.arr [Json.str "Use daylight.", Json.str "Focus the leaf."]),
     ("watering_advice", Json.str "Keep soil moist.")]

/-- The response text whose parse is `cConf0Json`. -/
def cConf0Text : String :=
  "\x7b\"plant_name\":\"Fern\",\"status\":\"Uncertain\",\"disease_name\":\"Unknown\",\"confidence\":0,\"treatment_advice\":\"Retake the photo.\",\"prevention_tips\":[\"Use daylight.\",\"Focus the leaf.\"],\"watering_advice\":\"Keep soil moist.\"\x7d"

/-- Environment: key present at load, remote returns `cConf0Text`. -/
def cConf0Env : CallEnv :=
  ⟨some "k", some "k", RemoteOutcome.returns (some cConf0Text), singleParse cConf0Text cConf0Json⟩

/-- A parsed response that conforms to the declared schema yet carries
confidence 150: the schema types `confidence` as a plain `NUMBER` with no
range constraint. -/
def c150Json : Json :=
  Json.obj
    [("plant_name", Json.str "Tomato"),
     ("status", Json.str "Diseased"),
     ("disease_name", Json.str "Blight"),
     ("confidence", Json.num 150),
     ("treatment_advice", Json.str "Apply fungicide."),
     ("prevention_tips", Json.arr [Json.str "Rotate crops.", Json.str "Stake plants."]),
     ("watering_advice", Json.str "Water at the base.")]

/-- The response text whose parse is `c150Json`. -/
def c150Text : String :=
  "\x7b\"plant_name\":\"Tomato\",\"status\":\"Diseased\",\"disease_name\":\"Blight\",\"confidence\":150,\"treatment_advice\":\"Apply fungicide.\",\"prevention_tips\":[\"Rotate crops.\",\"Stake plants.\"],\"watering_advice\":\"Water at the base.\"\x7d"

/-- Environment: key present at load, remote returns `c150Text`. -/
def c150Env : CallEnv :=
  ⟨some "k", some "k", RemoteOutcome.returns (some c150Text), singleParse c150Text c150Json⟩

/-- A parsed response that conforms to the declared schema with a single
prevention tip: the schema puts no length bound on the array. -/
def cOneTipJson : Json :=
  Json.obj
    [("plant_name", Json.str "Basil"),
     ("status", Json.str "Healthy"),
     ("disease_name", Json.str "None"),
     ("confidence", Json.num 90),
     ("treatment_advice", Json.str "None."),
     ("prevention_tips", Json.arr [Json.str "Only one tip."]),
     ("watering_advice", Json.str "Water when dry.")]

/-- The response text whose parse is `cOneTipJson`. -/
def cOneTipText : String :=
  "\x7b\"plant_name\":\"Basil\",\"status\":\"Healthy\",\"disease_name\":\"None\",\"confidence\":90,\"treatment_advice\":\"None.\",\"prevention_tips\":[\"Only one tip.\"],\"watering_advice\":\"Water when dry.\"\x7d"

/-- Environment: key present at load, remote returns `cOneTipText`. -/
def cOneTipEnv : CallEnv :=
  ⟨some "k", some "k", RemoteOutcome.returns (some cOneTipText), singleParse cOneTipText cOneTipJson⟩

/-- Environment: key present at load, response text `"42"`, which
`JSON.parse` decodes to the JSON number 42. -/
def cNumEnv : CallEnv :=
  ⟨some "k", some "k", RemoteOutcome.returns (some "42"), singleParse "42" (Json.num 42)⟩

/-- Environment: the variable was unset when the module loaded and was set
to `"late-key"` by call time. -/
def cLateKeyEnv : CallEnv :=
  ⟨none, some "late-key", RemoteOutcome.returns (some "42"), singleParse "42" (Json.num 42)⟩

/-- Environment: the variable was set to the empty string at module load. -/
def cEmptyKeyEnv : CallEnv :=
  ⟨some "", some "", RemoteOutcome.throws, fun _ => none⟩

/-- Environment: key present at load, remote call throws. -/
def cThrowEnv : CallEnv :=
  ⟨some "k", some "k", RemoteOutcome.throws, fun _ => none⟩

/-- Environment: key present at load, remote resolves with no text
(`response.text` undefined). -/
def cNoTextEnv : CallEnv :=
  ⟨some "k", some "k", RemoteOutcome.returns none, fun _ => none⟩

/-- Environment: key present at load, remote resolves with text that is not
valid JSON (the parser rejects it). -/
def cBadJsonEnv : CallEnv :=
  ⟨some "k", some "k", RemoteOutcome.returns (some "not json"), fun _ => none⟩

/-- A JSON value matches one property schema: strings for `STRING`
(restricted to the enumeration when one is declared), numbers for `NUMBER`,
arrays of values of the item type for `ARRAY`. -/
def matchesProp (v : Json) (p : PropSchema) : Bool :=
  match p.type, v with
  | SType.STRING, Json.str s =>
      match p.enum with
      | some es => es.contains s
      | none => true
  | SType.NUMBER, Json.num _ => true
  | SType.ARRAY, Json.arr xs =>
      match p.items with
      | some SType.STRING => xs.all Json.isStr
      | _ => false
  | _, _ => false

/-- A JSON value conforms to the declared response schema: it is an object,
every required property is present, and every present property is declared
and matches its property schema (no additional properties). -/
def conformsTo (v : Json) (sch : ResponseSchema) : Bool :=
  match v with
  | Json.obj fields =>
      sch.required.all (fun r => fields.any (fun kv => kv.fst == r)) &&
      fields.all (fun kv =>
        match sch.properties.find? (fun p => p.fst == kv.fst) with
        | some p => matchesProp kv.snd p.snd
        | none => false)
  | _ => false

/-! ### Helper lemmas -/

theorem string_mk_data (s : String) : String.mk s.data = s := by
  cases s; rfl

theorem strStartsWith_append (p r : String) : strStartsWith (p ++ r) p = true := by
  simp [strStartsWith, String.data_append, List.take_left]

theorem strStartsWith_iff (s p : String) :
    strStartsWith s p = true ↔ ∃ r, s = p ++ r := by
  constructor
  · intro h
    refine ⟨String.mk (s.data.drop p.data.length), ?_⟩
    simp only [strStartsWith, beq_iff_eq] at h
    apply String.ext
    rw [String.data_append]
    show s.data = p.data ++ s.data.drop p.data.length
    conv_lhs => rw [← List.take_append_drop p.data.length s.data]
    rw [h]
  · rintro ⟨r, rfl⟩
    exact strStartsWith_append p r

theorem cleanBase64_png (r : String) :
    cleanBase64 ("data:image/png;base64," ++ r) = r := by
  have h1 : ("data:image/png;base64," ++ r).data.drop 22 = r.data := by
    rw [String.data_append]
    exact List.drop_left' (by decide)
  simp [cleanBase64, dataUrlHeads, List.find?, strStartsWith, String.data_append,
    List.take_left, h1, string_mk_data]

theorem cleanBase64_jpg (r : String) :
    cleanBase64 ("data:image/jpg;base64," ++ r) = r := by
  have h1 : ("data:image/jpg;base64," ++ r).data.drop 22 = r.data := by
    rw [String.data_append]
    exact List.drop_left' (by decide)
  simp [cleanBase64, dataUrlHeads, List.find?, strStartsWith, String.data_append,
    List.take_left, h1, string_mk_data]

theorem cleanBase64_jpeg (r : String) :
    cleanBase64 ("data:image/jpeg;base64," ++ r) = r := by
  have h1 : ("data:image/jpeg;base64," ++ r).data.drop 23 = r.data := by
    rw [String.data_append]
    exact List.drop_left' (by decide)
  simp [cleanBase64, dataUrlHeads, List.find?, strStartsWith, String.data_append,
    List.take_left, h1, string_mk_data]

theorem cleanBase64_of_no_head (s : String)
    (h : ∀ p ∈ dataUrlHeads, strStartsWith s p = false) :
    cleanBase64 s = s := by
  have hn : dataUrlHeads.find? (fun p => strStartsWith s p) = none := by
    rw [List.find?_eq_none]
    intro p hp
    simp [h p hp]
  simp [cleanBase64, hn]

theorem analyzePlantImage_snd_eq (env : CallEnv) (b l : String) (sym : Option String)
    (hk : ¬ apiKey env = "") :
    (analyzePlantImage env b l sym).snd = some (buildRequest b l sym) := by
  simp [analyzePlantImage, hk]

theorem analyzePlantImage_ok_of_parse (env : CallEnv) (b l : String) (sym : Option String)
    (t : String) (v : Json) (hk : ¬ apiKey env = "")
    (hr : env.remote = RemoteOutcome.returns (some t)) (ht : ¬ t = "")
    (hp : env.jsonParse t = some v) :
    (analyzePlantImage env b l sym).fst = Except.ok v := by
  simp [analyzePlantImage, hk, hr, ht, hp]

theorem status_of_conforms (v : Json) (hc : conformsTo v responseSchema = true) :
    ∃ s, v.getField "status" = some (Json.str s) ∧
      (s = "Healthy" ∨ s = "Diseased" ∨ s = "Uncertain") := by
  cases v with
  | obj fields =>
    rw [conformsTo, Bool.and_eq_true, List.all_eq_true, List.all_eq_true] at hc
    obtain ⟨h1, h2⟩ := hc
    have hst : fields.any (fun kv => kv.fst == "status") = true := by
      have := h1 "status" (by simp [responseSchema])
      simpa using this
    rw [List.any_eq_true] at hst
    obtain ⟨kv, hkvmem, hkv⟩ := hst
    have hsome : (fields.find? (fun kv => kv.fst == "status")).isSome := by
      rw [List.find?_isSome]
      exact ⟨kv, hkvmem, hkv⟩
    obtain ⟨kv', hkv'⟩ := Option.isSome_iff_exists.mp hsome
    have hmem' : kv' ∈ fields := List.mem_of_find?_eq_some hkv'
    have hname' : kv'.fst = "status" := by
      have := List.find?_some hkv'
      simpa using this
    have h2' := h2 kv' hmem'
    rw [hname'] at h2'
    have hfind : responseSchema.properties.find? (fun p => p.fst == "status") =
        some ("status", ⟨SType.STRING, some ["Healthy", "Diseased", "Uncertain"], none⟩) := by
      rfl
    rw [hfind] at h2'
    cases hv : kv'.snd with
    | str s =>
      rw [hv] at h2'
      simp [matchesProp] at h2'
      refine ⟨s, ?_, h2'⟩
      simp [Json.getField, hkv', hv]
    | null => rw [hv] at h2'; simp [matchesProp] at h2'
    | bool b => rw [hv] at h2'; simp [matchesProp] at h2'
    | num q => rw [hv] at h2'; simp [matchesProp] at h2'
    | arr xs => rw [hv] at h2'; simp [matchesProp] at h2'
    | obj f => rw [hv] at h2'; simp [matchesProp] at h2'
  | null => simp [conformsTo] at hc
  | bool b => simp [conformsTo] at hc
  | num q => simp [conformsTo] at hc
  | str s => simp [conformsTo] at hc
  | arr xs => simp [conformsTo] at hc

theorem tips_of_conforms (v : Json) (w : Json)
    (hc : conformsTo v responseSchema = true)
    (hw : v.getField "prevention_tips" = some w) :
    ∃ xs, w = Json.arr xs ∧ xs.all Json.isStr = true := by
  cases v with
  | obj fields =>
    rw [conformsTo, Bool.and_eq_true, List.all_eq_true, List.all_eq_true] at hc
    obtain ⟨h1, h2⟩ := hc
    rw [Json.getField] at hw
    obtain ⟨kv', hkv', hsnd⟩ := Option.map_eq_some'.mp hw
    have hmem' : kv' ∈ fields := List.mem_of_find?_eq_some hkv'
    have hname' : kv'.fst = "prevention_tips" := by
      have := List.find?_some hkv'
      simpa using this
    have h2' := h2 kv' hmem'
    rw [hname'] at h2'
    have hfind : responseSchema.properties.find? (fun p => p.fst == "prevention_tips") =
        some ("prevention_tips", ⟨SType.ARRAY, none, some SType.STRING⟩) := by
      rfl
    rw [hfind] at h2'
    rw [hsnd] at h2'
    cases w with
    | arr xs =>
      refine ⟨xs, rfl, ?_⟩
      simpa [matchesProp] using h2'
    | null => simp [matchesProp] at h2'
    | bool b => simp [matchesProp] at h2'
    | num q => simp [matchesProp] at h2'
    | str s => simp [matchesProp] at h2'
    | obj f => simp [matchesProp] at h2'
  | null => simp [conformsTo] at hc
  | bool b => simp [conformsTo] at hc
  | num q => simp [conformsTo] at hc
  | str s => simp [conformsTo] at hc
  | arr xs => simp [conformsTo] at hc

/-! ### Claim theorems -/

/-- C1 counterexample: with a response whose text is `"42"` — valid JSON
that decodes to the number 42, which does not conform to the seven-field
schema — `analyzePlantImage` resolves successfully with that malformed
value instead of failing with the analysis error: the
`as DiseaseAnalysisResult` cast performs no runtime check. -/
theorem analyzePlantImage_returns_nonconforming_number :
    (analyzePlantImage cNumEnv "img" "English" none).fst = Except.ok (Json.num 42) ∧
    conformsTo (Json.num 42) responseSchema = false := by
  exact ⟨rfl, rfl⟩

/-- C1 (amended): whenever the response text parses as JSON, the decoded
value — of whatever shape — is returned as-is, with no structural
validation; only a parse failure (or an earlier failure) produces the
uniform analysis error. -/
theorem analyzePlantImage_no_structural_validation (env : CallEnv)
    (b l : String) (sym : Option String) (t : String)
    (hk : ¬ apiKey env = "")
    (hr : env.remote = RemoteOutcome.returns (some t)) (ht : ¬ t = "") :
    (∀ v, env.jsonParse t = some v →
      (analyzePlantImage env b l sym).fst = Except.ok v) ∧
    (env.jsonParse t = none →
      (analyzePlantImage env b l sym).fst = Except.error analysisFailedMessage) := by
  constructor
  · intro v hp
    exact analyzePlantImage_ok_of_parse env b l sym t v hk hr ht hp
  · intro hp
    simp [analyzePlantImage, hk, hr, ht, hp]

/-- Witness for C1 (amended), at the environment whose response text is
`"42"`. -/
theorem analyzePlantImage_no_structural_validation_witness :
    (∀ v, cNumEnv.jsonParse "42" = some v →
      (analyzePlantImage cNumEnv "img" "English" none).fst = Except.ok v) ∧
    (cNumEnv.jsonParse "42" = none →
      (analyzePlantImage cNumEnv "img" "English" none).fst = Except.error analysisFailedMessage) :=
  analyzePlantImage_no_structural_validation cNumEnv "img" "English" none "42"
    (by decide) rfl (by decide)

/-- C2: an input carrying any of the three recognized data-URL prefixes
(`data:image/png;base64,`, `data:image/jpg;base64,`,
`data:image/jpeg;base64,`) has that prefix removed before the image data is
placed in the outgoing request. -/
theorem analyzePlantImage_strips_data_url_head (env : CallEnv)
    (mime rest language : String) (sym : Option String)
    (hk : ¬ apiKey env = "")
    (hm : mime = "png" ∨ mime = "jpg" ∨ mime = "jpeg") :
    ∃ req,
      (analyzePlantImage env ("data:image/" ++ mime ++ ";base64," ++ rest)
        language sym).snd = some req ∧
      req.inlineDataData = rest := by
  refine ⟨buildRequest ("data:image/" ++ mime ++ ";base64," ++ rest) language sym,
    analyzePlantImage_snd_eq env _ language sym hk, ?_⟩
  show cleanBase64 ("data:image/" ++ mime ++ ";base64," ++ rest) = rest
  rcases hm with rfl | rfl | rfl
  · have h : ("data:image/" ++ "png" ++ ";base64,") = "data:image/png;base64," := rfl
    rw [h]
    exact cleanBase64_png rest
  · have h : ("data:image/" ++ "jpg" ++ ";base64,") = "data:image/jpg;base64," := rfl
    rw [h]
    exact cleanBase64_jpg rest
  · have h : ("data:image/" ++ "jpeg" ++ ";base64,") = "data:image/jpeg;base64," := rfl
    rw [h]
    exact cleanBase64_jpeg rest

/-- Witness for C2, at the `jpeg` prefix and payload `QUJDRA==`. -/
theorem analyzePlantImage_strips_data_url_head_witness :
    ∃ req,
      (analyzePlantImage cThrowEnv ("data:image/" ++ "jpeg" ++ ";base64," ++ "QUJDRA==")
        "English" none).snd = some req ∧
      req.inlineDataData = "QUJDRA==" :=
  analyzePlantImage_strips_data_url_head cThrowEnv "jpeg" "QUJDRA==" "English" none
    (by decide) (Or.inr (Or.inr rfl))

/-- C3: when the credential was empty or absent, the call rejects with the
API-key-missing message and the request component is `none`: the guard
throws before the `GoogleGenAI` client is constructed, so no network I/O is
attempted. -/
theorem analyzePlantImage_missing_key_no_request (env : CallEnv)
    (b l : String) (sym : Option String)
    (h : env.processApiKeyAtLoad = none ∨ env.processApiKeyAtLoad = some "") :
    analyzePlantImage env b l sym = (Except.error apiKeyMissingMessage, none) := by
  have hk : apiKey env = "" := by
    rcases h with h | h <;> simp [apiKey, h]
  simp [analyzePlantImage, hk]

/-- Witness for C3, at an environment whose variable was the empty string at
module load. -/
theorem analyzePlantImage_missing_key_no_request_witness :
    analyzePlantImage cEmptyKeyEnv "img" "English" none =
      (Except.error apiKeyMissingMessage, none) :=
  analyzePlantImage_missing_key_no_request cEmptyKeyEnv "img" "English" none
    (Or.inr rfl)

/-- C4: whether the remote call throws, the response text is missing
(`undefined`) or empty, or the text fails to parse as JSON, the call
rejects with one and the same analysis-error message (the one suggesting
checking key validity and billing); no network or decode exception reaches
the caller. -/
theorem analyzePlantImage_uniform_analysis_error (env : CallEnv)
    (b l : String) (sym : Option String)
    (hk : ¬ apiKey env = "")
    (hfail : env.remote = RemoteOutcome.throws ∨
      env.remote = RemoteOutcome.returns none ∨
      ∃ t, env.remote = RemoteOutcome.returns (some t) ∧
        (t = "" ∨ env.jsonParse t = none)) :
    (analyzePlantImage env b l sym).fst = Except.error analysisFailedMessage := by
  rcases hfail with h | h | ⟨t, hr, h⟩
  · simp [analyzePlantImage, hk, h]
  · simp [analyzePlantImage, hk, h]
  · by_cases ht : t = ""
    · simp [analyzePlantImage, hk, hr, ht]
    · rcases h with h | h
      · exact absurd h ht
      · simp [analyzePlantImage, hk, hr, ht, h]

/-- Witness for C4: one conjunction covering all three failure modes — the
remote call throwing, a missing response text, and non-JSON response text —
each rejecting with the same message. -/
theorem analyzePlantImage_uniform_analysis_error_witness :
    (analyzePlantImage cThrowEnv "img" "English" none).fst =
      Except.error analysisFailedMessage ∧
    (analyzePlantImage cNoTextEnv "img" "English" none).fst =
      Except.error analysisFailedMessage ∧
    (analyzePlantImage cBadJsonEnv "img" "English" none).fst =
      Except.error analysisFailedMessage :=
  ⟨analyzePlantImage_uniform_analysis_error cThrowEnv "img" "English" none
      (by decide) (Or.inl rfl),
   analyzePlantImage_uniform_analysis_error cNoTextEnv "img" "English" none
      (by decide) (Or.inr (Or.inl rfl)),
   analyzePlantImage_uniform_analysis_error cBadJsonEnv "img" "English" none
      (by decide) (Or.inr (Or.inr ⟨"not json", rfl, Or.inr rfl⟩))⟩

/-- C5: when the response text parses to a JSON value conforming to the
declared seven-field schema, the call resolves with exactly that value —
every field equal to the response field, none altered, dropped, or added —
and its `status` field is one of `Healthy`, `Diseased`, `Uncertain`. -/
theorem analyzePlantImage_conformant_passthrough (env : CallEnv)
    (b l : String) (sym : Option String) (t : String) (v : Json)
    (hk : ¬ apiKey env = "")
    (hr : env.remote = RemoteOutcome.returns (some t)) (ht : ¬ t = "")
    (hp : env.jsonParse t = some v)
    (hc : conformsTo v responseSchema = true) :
    (analyzePlantImage env b l sym).fst = Except.ok v ∧
    ∃ s, v.getField "status" = some (Json.str s) ∧
      (s = "Healthy" ∨ s = "Diseased" ∨ s = "Uncertain") :=
  ⟨analyzePlantImage_ok_of_parse env b l sym t v hk hr ht hp,
   status_of_conforms v hc⟩

set_option maxRecDepth 16384 in
/-- Witness for C5, at the conformant healthy-tomato response. -/
theorem analyzePlantImage_conformant_passthrough_witness :
    (analyzePlantImage cGoodEnv "img" "English" none).fst = Except.ok cGoodJson ∧
    ∃ s, cGoodJson.getField "status" = some (Json.str s) ∧
      (s = "Healthy" ∨ s = "Diseased" ∨ s = "Uncertain") :=
  analyzePlantImage_conformant_passthrough cGoodEnv "img" "English" none
    cGoodText cGoodJson (by decide) rfl (by decide) rfl (by decide)

set_option maxRecDepth 16384 in
/-- C6 counterexample: the declared schema types `confidence` as a plain
`NUMBER` with no range constraint, so a response with confidence 150
conforms to the declared schema, and the call returns 150 unchanged — a
value outside the closed interval [0, 100]. -/
theorem analyzePlantImage_confidence_150_returned :
    conformsTo c150Json responseSchema = true ∧
    (analyzePlantImage c150Env "img" "English" none).fst = Except.ok c150Json ∧
    c150Json.getField "confidence" = some (Json.num 150) ∧
    ¬ ((150 : ℚ) ≤ 100) := by
  refine ⟨by decide, rfl, rfl, by norm_num⟩

/-- C6 (amended): for every schema-conformant response, the confidence
number is returned unchanged — the code never inspects it — and therefore
lies in [0, 100] whenever the upstream value does, boundary values 0 and
100 included; the declared schema itself imposes no range. -/
theorem analyzePlantImage_confidence_unchanged (env : CallEnv)
    (b l : String) (sym : Option String) (t : String) (v : Json) (q : ℚ)
    (hk : ¬ apiKey env = "")
    (hr : env.remote = RemoteOutcome.returns (some t)) (ht : ¬ t = "")
    (hp : env.jsonParse t = some v)
    (_hc : conformsTo v responseSchema = true)
    (hq : v.getField "confidence" = some (Json.num q))
    (h0 : 0 ≤ q) (h100 : q ≤ 100) :
    ∃ r, (analyzePlantImage env b l sym).fst = Except.ok r ∧
      r.getField "confidence" = some (Json.num q) ∧ 0 ≤ q ∧ q ≤ 100 :=
  ⟨v, analyzePlantImage_ok_of_parse env b l sym t v hk hr ht hp, hq, h0, h100⟩

set_option maxRecDepth 16384 in
/-- Witness for C6 (amended), at both boundary values: a conformant
response with confidence exactly 100 and one with confidence exactly 0,
each returned unchanged. -/
theorem analyzePlantImage_confidence_unchanged_witness :
    (∃ r, (analyzePlantImage cConf100Env "img" "English" none).fst = Except.ok r ∧
      r.getField "confidence" = some (Json.num 100) ∧ (0 : ℚ) ≤ 100 ∧ (100 : ℚ) ≤ 100) ∧
    (∃ r, (analyzePlantImage cConf0Env "img" "English" none).fst = Except.ok r ∧
      r.getField "confidence" = some (Json.num 0) ∧ (0 : ℚ) ≤ 0 ∧ (0 : ℚ) ≤ 100) :=
  ⟨analyzePlantImage_confidence_unchanged cConf100Env "img" "English" none
      cConf100Text cConf100Json 100 (by decide) rfl (by decide) rfl (by decide)
      rfl (by norm_num) (by norm_num),
   analyzePlantImage_confidence_unchanged cConf0Env "img" "English" none
      cConf0Text cConf0Json 0 (by decide) rfl (by decide) rfl (by decide)
      rfl (by norm_num) (by norm_num)⟩

/-- C7: every request `analyzePlantImage` hands to the remote service
declares a response schema with exactly the seven properties
`plant_name, status, disease_name, confidence, treatment_advice,
prevention_tips, watering_advice`, of which exactly the six
`plant_name, status, treatment_advice, confidence, prevention_tips,
watering_advice` are required (`disease_name` is not), and whose `status`
property is constrained to the enumeration
`["Healthy", "Diseased", "Uncertain"]`. -/
theorem analyzePlantImage_request_declared_schema (env : CallEnv)
    (b l : String) (sym : Option String)
    (hk : ¬ apiKey env = "") :
    ∃ req, (analyzePlantImage env b l sym).snd = some req ∧
      req.declaredSchema.properties.map Prod.fst =
        ["plant_name", "status", "disease_name", "confidence",
         "treatment_advice", "prevention_tips", "watering_advice"] ∧
      req.declaredSchema.required =
        ["plant_name", "status", "treatment_advice", "confidence",
         "prevention_tips", "watering_advice"] ∧
      ¬ "disease_name" ∈ req.declaredSchema.required ∧
      (req.declaredSchema.properties.find? (fun p => p.fst == "status")).map
          (fun p => p.snd.enum) = some (some ["Healthy", "Diseased", "Uncertain"]) ∧
      req.responseMimeType = "application/json" :=
  by
  refine ⟨buildRequest b l sym, analyzePlantImage_snd_eq env b l sym hk,
    rfl, rfl, ?_, rfl, rfl⟩
  show ¬ "disease_name" ∈ responseSchema.required
  decide

/-- Witness for C7, at a concrete call. -/
theorem analyzePlantImage_request_declared_schema_witness :
    ∃ req, (analyzePlantImage cThrowEnv "img" "English" none).snd = some req ∧
      req.declaredSchema.properties.map Prod.fst =
        ["plant_name", "status", "disease_name", "confidence",
         "treatment_advice", "prevention_tips", "watering_advice"] ∧
      req.declaredSchema.required =
        ["plant_name", "status", "treatment_advice", "confidence",
         "prevention_tips", "watering_advice"] ∧
      ¬ "disease_name" ∈ req.declaredSchema.required ∧
      (req.declaredSchema.properties.find? (fun p => p.fst == "status")).map
          (fun p => p.snd.enum) = some (some ["Healthy", "Diseased", "Uncertain"]) ∧
      req.responseMimeType = "application/json" :=
  analyzePlantImage_request_declared_schema cThrowEnv "img" "English" none (by decide)

set_option maxRecDepth 16384 in
/-- C8 counterexample: the declared schema puts no length bound on
`prevention_tips`, so a conformant response carrying a single tip is
returned with that single tip — a list whose length is not between 2 and
3. -/
theorem analyzePlantImage_single_tip_returned :
    conformsTo cOneTipJson responseSchema = true ∧
    (analyzePlantImage cOneTipEnv "img" "English" none).fst = Except.ok cOneTipJson ∧
    cOneTipJson.getField "prevention_tips" =
      some (Json.arr [Json.str "Only one tip."]) ∧
    ¬ (2 ≤ ([Json.str "Only one tip."] : List Json).length) := by
  refine ⟨by decide, rfl, rfl, by simp⟩

/-- C8 (amended): for every record returned from a schema-conformant
response, the prevention-tips field is an ordered list of text items,
returned exactly as upstream sent it; its length is whatever upstream chose
— the 2–3 range is requested only in the prompt, not enforced by the
code. -/
theorem analyzePlantImage_prevention_tips_unchanged (env : CallEnv)
    (b l : String) (sym : Option String) (t : String) (v : Json) (w : Json)
    (hk : ¬ apiKey env = "")
    (hr : env.remote = RemoteOutcome.returns (some t)) (ht : ¬ t = "")
    (hp : env.jsonParse t = some v)
    (hc : conformsTo v responseSchema = true)
    (hw : v.getField "prevention_tips" = some w) :
    (analyzePlantImage env b l sym).fst = Except.ok v ∧
    v.getField "prevention_tips" = some w ∧
    ∃ xs, w = Json.arr xs ∧ xs.all Json.isStr = true :=
  ⟨analyzePlantImage_ok_of_parse env b l sym t v hk hr ht hp, hw,
   tips_of_conforms v w hc hw⟩

set_option maxRecDepth 16384 in
/-- Witness for C8 (amended), at the conformant two-tip response. -/
theorem analyzePlantImage_prevention_tips_unchanged_witness :
    (analyzePlantImage cGoodEnv "img" "English" none).fst = Except.ok cGoodJson ∧
    cGoodJson.getField "prevention_tips" =
      some (Json.arr [Json.str "Water at soil level.", Json.str "Ensure airflow."]) ∧
    ∃ xs, Json.arr [Json.str "Water at soil level.", Json.str "Ensure airflow."] =
      Json.arr xs ∧ xs.all Json.isStr = true :=
  analyzePlantImage_prevention_tips_unchanged cGoodEnv "img" "English" none
    cGoodText cGoodJson
    (Json.arr [Json.str "Water at soil level.", Json.str "Ensure airflow."])
    (by decide) rfl (by decide) rfl (by decide) rfl

/-- C9 counterexample: the credential is captured once, at module load
(`const apiKey = process.env.API_KEY || ''`). In an environment where the
variable was unset at module load and holds the non-empty value
`"late-key"` at call time, the call still fails with the API-key-missing
message and sends nothing: the change between module load and the call is
not reflected. -/
theorem analyzePlantImage_ignores_call_time_key :
    cLateKeyEnv.processApiKeyAtCall = some "late-key" ∧
    ¬ ("late-key" = "") ∧
    analyzePlantImage cLateKeyEnv "img" "English" none =
      (Except.error apiKeyMissingMessage, none) :=
  ⟨rfl, by decide, rfl⟩

/-- C9 (amended): the credential used — both for the presence check and in
the request context — is the value the environment variable had at module
load; the call-time value of the variable is never read, so the call's
behaviour is identical for any two call-time values over the same
module-load value. -/
theorem analyzePlantImage_key_read_at_load (load c1 c2 : Option String)
    (rem : RemoteOutcome) (jp : String → Option Json)
    (b l : String) (sym : Option String) :
    analyzePlantImage ⟨load, c1, rem, jp⟩ b l sym =
      analyzePlantImage ⟨load, c2, rem, jp⟩ b l sym ∧
    apiKey ⟨load, c1, rem, jp⟩ = load.getD "" :=
  ⟨rfl, rfl⟩

/-- C10: the data placed in the outgoing request is the input string
completely unchanged whenever the input does not begin with one of the
three exact lowercase data-URL prefixes (other mime types, uppercase
variants, and prefixes occurring only later in the string all count as not
beginning with one); and when the input does begin with such a prefix,
exactly that one leading occurrence is removed and the remainder — even if
it begins with another recognized prefix — is transmitted unchanged. -/
theorem analyzePlantImage_data_url_strip_exact (env : CallEnv)
    (s rest language : String) (sym : Option String)
    (hk : ¬ apiKey env = "") :
    ∃ req, (analyzePlantImage env s language sym).snd = some req ∧
      ((∀ p ∈ dataUrlHeads, ¬ ∃ r, s = p ++ r) → req.inlineDataData = s) ∧
      (∀ p ∈ dataUrlHeads, s = p ++ rest → req.inlineDataData = rest) := by
  refine ⟨buildRequest s language sym,
    analyzePlantImage_snd_eq env s language sym hk, ?_, ?_⟩
  · intro h
    show cleanBase64 s = s
    apply cleanBase64_of_no_head
    intro p hp
    rcases hb : strStartsWith s p with _ | _
    · rfl
    · exact absurd ((strStartsWith_iff s p).mp hb) (h p hp)
  · intro p hp hs
    show cleanBase64 s = rest
    subst hs
    have hp' : p = "data:image/png;base64," ∨ p = "data:image/jpg;base64," ∨
        p = "data:image/jpeg;base64," := by
      simpa [dataUrlHeads] using hp
    rcases hp' with rfl | rfl | rfl
    · exact cleanBase64_png rest
    · exact cleanBase64_jpg rest
    · exact cleanBase64_jpeg rest

/-- Witness for C10: the input carries the `png` prefix twice; exactly one
leading occurrence is removed, and the remainder (which itself begins with
a recognized prefix) is transmitted unchanged. -/
theorem analyzePlantImage_data_url_strip_exact_witness :
    ∃ req, (analyzePlantImage cThrowEnv
        ("data:image/png;base64," ++ "data:image/png;base64,QUJD")
        "English" none).snd = some req ∧
      ((∀ p ∈ dataUrlHeads,
        ¬ ∃ r, ("data:image/png;base64," ++ "data:image/png;base64,QUJD") = p ++ r) →
        req.inlineDataData = ("data:image/png;base64," ++ "data:image/png;base64,QUJD")) ∧
      (∀ p ∈ dataUrlHeads,
        ("data:image/png;base64," ++ "data:image/png;base64,QUJD") = p ++ "data:image/png;base64,QUJD" →
        req.inlineDataData = "data:image/png;base64,QUJD") :=
  analyzePlantImage_data_url_strip_exact cThrowEnv
    ("data:image/png;base64," ++ "data:image/png;base64,QUJD")
    "data:image/png;base64,QUJD" "English" none (by decide)
